import Mathlib

/-!
# Verification of the CECOFramework edge/cloud decision subsystem

Shallow embedding of the Python sources of the vLLM/Llama collaborative
inference framework (`src/vllm_llama_inference_framework/`), covering:

* `common/types.py` — the shared dataclasses;
* `edge/history_tracker.py` — `HistoryTracker`;
* `edge/adaptive_threshold.py` — `AdaptiveThresholdCalculator`;
* `edge/decision_engine.py` — `HardConstraintChecker`, `MultiObjectiveScorer`;
* `edge/execution_planner.py` — `ExecutionPlanner`;
* `edge/f1_decision.py` — the decision pipeline of `F1_DecisionModule`;
* `edge/edge_server.py` — the execution branches of `EdgeServer`;
* `cloud/draft_verifier.py` and `cloud/cloud_server.py` — the verifier.

Modelling conventions:

* Python `float` is modelled as `ℚ` (exact arithmetic); all numeric facts
  proved here concern comparisons and clamps that are robust to this choice.
* Python `int` is modelled as `ℤ` where the source declares ints.
* Nondeterministic inputs (random draws of the mock verifier, the wall
  clock, responses of remote peers) are passed as explicit parameters.
* Fallible code returns `Option`/`Except`; an uncaught Python exception is
  `Except.error`/`none`.
* f-string messages built by the source carry interpolated floats; the
  `reason` of a hard decision is modelled by which rule produced it
  (inductive `HardReason`), one constructor per distinct message template.
-/

namespace CECO

/-- `ExecutionStrategy` enum, `common/types.py` lines 27-32. -/
inductive ExecutionStrategy
  | edge_only
  | cloud_direct
  | speculative_standard
  | adaptive_confidence
deriving DecidableEq, Repr

/-- `ConfidenceStrategy` enum, `common/types.py` lines 11-16. -/
inductive ConfidenceStrategy
  | max_prob
  | entropy
  | temperature
  | top_k_agg
deriving DecidableEq, Repr

/-- `TaskRequirements` dataclass, `common/types.py` lines 66-72. -/
structure TaskRequirements where
  max_latency_ms : ℤ := 5000
  min_quality_score : ℚ := 0.8
  priority : ℤ := 1
  privacy_level : ℤ := 0
deriving DecidableEq, Repr

/-- `SystemStats` dataclass, `common/types.py` lines 74-81. -/
structure SystemStats where
  cpu_usage : ℚ
  memory_available_mb : ℚ
  gpu_memory_free_mb : ℚ := 0
  gpu_usage : ℚ := 0
  device_type : String := "cpu"
  timestamp : ℚ := 0
deriving DecidableEq, Repr

/-- `NetworkStats` dataclass, `common/types.py` lines 84-90. -/
structure NetworkStats where
  rtt_ms : ℚ
  bandwidth_mbps : ℚ := 0
  packet_loss_rate : ℚ := 0
  is_weak_network : Bool := false
deriving DecidableEq, Repr

/-- `InferenceRequest` dataclass, `common/types.py` lines 94-111. -/
structure InferenceRequest where
  prompt : String
  max_tokens : ℤ := 128
  temperature : ℚ := 0.8
  top_p : ℚ := 0.95
  top_k : ℤ := 40
  use_draft_verify : Bool := true
  use_confidence_check : Bool := true
  confidence_threshold : ℚ := 0.8
  requirements : TaskRequirements := {}
deriving DecidableEq, Repr

/-- `DecisionContext` dataclass, `common/types.py` lines 154-160. -/
structure DecisionContext where
  request : InferenceRequest
  system_state : SystemStats
  task_requirements : TaskRequirements
  network_state : Option NetworkStats := none
deriving DecidableEq, Repr

/-- `ExecutionRecord` dataclass, `edge/history_tracker.py` lines 14-25. -/
structure ExecutionRecord where
  timestamp : ℚ
  strategy : ExecutionStrategy
  acceptance_rate : ℚ
  latency_ms : ℚ
  edge_latency_ms : ℚ
  cloud_latency_ms : ℚ
  confidence_score : ℚ
  success : Bool
  tokens_generated : ℤ := 0
deriving DecidableEq, Repr

/-! ## HistoryTracker (`edge/history_tracker.py`) -/

/-- `HistoryTracker` state: the `deque(maxlen=max_history_size)` plus the
per-strategy capped lists `_strategy_stats` (lines 35-48). Lists hold the
oldest record first, the newest last, as the Python containers do. -/
structure HistoryTracker where
  max_history_size : ℕ
  history : List ExecutionRecord
  stats : ExecutionStrategy → List ExecutionRecord

/-- A fresh tracker (`__init__`, lines 35-48): empty window, empty
per-strategy lists. -/
def HistoryTracker.mk0 (max_history_size : ℕ := 100) : HistoryTracker :=
  { max_history_size := max_history_size
    history := []
    stats := fun _ => [] }

/-- Python `lst[-n:]` on a list, for `n : ℕ`: the last `n` elements —
except that `lst[-0:]` is the whole list. -/
def pyTail (n : ℕ) (l : List α) : List α :=
  if n = 0 then l else l.drop (l.length - n)

/-- `deque(maxlen=W).append(r)`: append, dropping the oldest element when
the window is full. The same shape models the `pop(0)` of the per-strategy
lists (lines 60-63), which keeps at most `max_history_size` entries. -/
def capAppend (w : ℕ) (l : List α) (r : α) : List α :=
  let l2 := l ++ [r]
  if w < l2.length then l2.drop (l2.length - w) else l2

/-- `HistoryTracker.add_record` (lines 50-63). -/
def HistoryTracker.add_record (t : HistoryTracker) (r : ExecutionRecord) :
    HistoryTracker :=
  { t with
    history := capAppend t.max_history_size t.history r
    stats := fun s =>
      if s = r.strategy then capAppend t.max_history_size (t.stats s) r
      else t.stats s }

/-- `HistoryTracker.get_recent_records(n=20)` (lines 65-75):
`list(self.history)[-n:]`. -/
def HistoryTracker.get_recent_records (t : HistoryTracker) (n : ℕ := 20) :
    List ExecutionRecord :=
  pyTail n t.history

/-- `HistoryTracker.get_records_by_strategy(strategy, n)` (lines 77-93):
all records of the strategy when `n` is `None`, else the last `n`. -/
def HistoryTracker.get_records_by_strategy (t : HistoryTracker)
    (strategy : ExecutionStrategy) (n : Option ℕ := none) :
    List ExecutionRecord :=
  match n with
  | none => t.stats strategy
  | some k => pyTail k (t.stats strategy)

/-- The strategies counted as "used verification" by
`get_recent_acceptance_rate` (lines 117-121). -/
def usesVerification (s : ExecutionStrategy) : Bool :=
  s = ExecutionStrategy.speculative_standard ∨
  s = ExecutionStrategy.adaptive_confidence

/-- `statistics.mean` over a projection of a record list. -/
def recordMean (f : ExecutionRecord → ℚ) (l : List ExecutionRecord) : ℚ :=
  (l.map f).sum / l.length

/-- `HistoryTracker.get_recent_acceptance_rate(strategy=None, n=20)`
(lines 95-127): select the last `n` records (of the strategy when one is
given), return the default `0.8` when the selection is empty, filter the
selection to the speculative strategies, return `0.8` again when nothing
remains, else the mean `acceptance_rate`. -/
def HistoryTracker.get_recent_acceptance_rate (t : HistoryTracker)
    (strategy : Option ExecutionStrategy := none) (n : ℕ := 20) : ℚ :=
  let records := match strategy with
    | some s => t.get_records_by_strategy s (some n)
    | none => t.get_recent_records n
  if records.isEmpty then 0.8
  else
    let valid := records.filter (fun r => usesVerification r.strategy)
    if valid.isEmpty then 0.8
    else recordMean (fun r => r.acceptance_rate) valid

/-- `HistoryTracker.get_avg_latency(strategy=None, n=20)` (lines 129-151). -/
def HistoryTracker.get_avg_latency (t : HistoryTracker)
    (strategy : Option ExecutionStrategy := none) (n : ℕ := 20) : ℚ :=
  let records := match strategy with
    | some s => t.get_records_by_strategy s (some n)
    | none => t.get_recent_records n
  if records.isEmpty then 100
  else recordMean (fun r => r.latency_ms) records

/-- `HistoryTracker.get_success_rate(strategy=None, n=20)` (lines 153-175). -/
def HistoryTracker.get_success_rate (t : HistoryTracker)
    (strategy : Option ExecutionStrategy := none) (n : ℕ := 20) : ℚ :=
  let records := match strategy with
    | some s => t.get_records_by_strategy s (some n)
    | none => t.get_recent_records n
  if records.isEmpty then 1
  else ((records.filter (fun r => r.success)).length : ℚ) / records.length

/-! ## AdaptiveThresholdCalculator (`edge/adaptive_threshold.py`) -/

/-- Configuration of `AdaptiveThresholdCalculator.__init__`
(lines 20-46), with the source defaults. -/
structure AdaptiveConfig where
  target_acceptance_min : ℚ := 0.80
  target_acceptance_max : ℚ := 0.90
  threshold_step : ℚ := 0.05
  smoothing_factor : ℚ := 0.1
  threshold_min : ℚ := 0.50
  threshold_max : ℚ := 0.95
  initial_confidence_threshold : ℚ := 0.80
  update_interval : ℕ := 10
deriving DecidableEq, Repr

/-- Number of SPECULATIVE_STANDARD samples consulted by the adaptive
update: `len(history.get_records_by_strategy(SPECULATIVE_STANDARD, n=20))`
(line 84). -/
def adaptiveSampleCount (history : HistoryTracker) : ℕ :=
  (history.get_records_by_strategy ExecutionStrategy.speculative_standard
    (some 20)).length

/--
`AdaptiveThresholdCalculator.calculate_adaptive_confidence_threshold`
(lines 58-119): read the recent SPECULATIVE_STANDARD acceptance rate; keep
the current threshold when fewer than 5 samples exist; otherwise compute a
step adjustment (negative above `target_acceptance_max`, positive below
`target_acceptance_min`, zero in between), apply exponential smoothing
`current * (1 - α) + (current + adj) * α`, and clamp to
`[threshold_min, threshold_max]`.
-/
def calculate_adaptive_confidence_threshold (cfg : AdaptiveConfig)
    (history : HistoryTracker) (current_threshold : ℚ) : ℚ :=
  let recent_ar := history.get_recent_acceptance_rate
    (some ExecutionStrategy.speculative_standard) 20
  if adaptiveSampleCount history < 5 then current_threshold
  else
    let adjustment : ℚ :=
      if cfg.target_acceptance_max < recent_ar then
        -cfg.threshold_step * ((recent_ar - cfg.target_acceptance_max) / 0.1)
      else if recent_ar < cfg.target_acceptance_min then
        cfg.threshold_step * ((cfg.target_acceptance_min - recent_ar) / 0.1)
      else 0
    let new_threshold := current_threshold * (1 - cfg.smoothing_factor) +
      (current_threshold + adjustment) * cfg.smoothing_factor
    max cfg.threshold_min (min cfg.threshold_max new_threshold)

/-- A sequence of adaptive updates of the confidence threshold: each entry
of `hists` is the `HistoryTracker` contents seen by one call of
`calculate_adaptive_confidence_threshold` (the path taken by
`update_parameters`, lines 196-202, on each firing of the controller). -/
def adaptiveUpdates (cfg : AdaptiveConfig) (hists : List HistoryTracker)
    (t0 : ℚ) : ℚ :=
  hists.foldl (fun t h => calculate_adaptive_confidence_threshold cfg h t) t0

/-! ## HardConstraintChecker (`edge/decision_engine.py` lines 21-109) -/

/-- Which hard-constraint rule fired. The Python code returns an f-string
message per rule (with interpolated measurements); we record the message
template, one constructor per distinct `reason=` expression of
`HardConstraintChecker.check`. -/
inductive HardReason
  | gpu_overload
  | cpu_overload
  | memory_low
  | ultra_low_latency
  | privacy_sensitive
  | weak_network_flag
  | high_rtt
  | urgent_low_quality
deriving DecidableEq, Repr

/-- `HardDecision` dataclass, `common/types.py` lines 172-176. -/
structure HardDecision where
  strategy : ExecutionStrategy
  reason : HardReason
deriving DecidableEq, Repr

/-- Thresholds of `HardConstraintChecker.__init__`
(`edge/decision_engine.py` lines 24-31), with the source defaults. -/
structure HardConfig where
  cpu_overload_threshold : ℚ := 95
  gpu_overload_threshold : ℚ := 85
  memory_critical_mb : ℚ := 500
  ultra_low_latency_ms : ℚ := 50
  weak_network_rtt_threshold : ℚ := 200
deriving DecidableEq, Repr

/-- `HardConstraintChecker.check` (`edge/decision_engine.py` lines 33-109).
The source is a sequence of early returns; the two overload checks live in
the two branches of an `if device_type == "gpu"` and are flattened here
into the first two arms of the chain (they are mutually exclusive on
`device_type`). -/
def HardConstraintChecker.check (cfg : HardConfig) (ctx : DecisionContext) :
    Option HardDecision :=
  if ctx.system_state.device_type = "gpu" ∧
      cfg.gpu_overload_threshold < ctx.system_state.gpu_usage then
    some ⟨ExecutionStrategy.cloud_direct, HardReason.gpu_overload⟩
  else if ctx.system_state.device_type ≠ "gpu" ∧
      cfg.cpu_overload_threshold < ctx.system_state.cpu_usage then
    some ⟨ExecutionStrategy.cloud_direct, HardReason.cpu_overload⟩
  else if ctx.system_state.memory_available_mb < cfg.memory_critical_mb then
    some ⟨ExecutionStrategy.cloud_direct, HardReason.memory_low⟩
  else if (ctx.task_requirements.max_latency_ms : ℚ) < cfg.ultra_low_latency_ms then
    some ⟨ExecutionStrategy.edge_only, HardReason.ultra_low_latency⟩
  else if 2 ≤ ctx.task_requirements.privacy_level then
    some ⟨ExecutionStrategy.edge_only, HardReason.privacy_sensitive⟩
  else
    let urgent : Option HardDecision :=
      if 3 ≤ ctx.task_requirements.priority ∧
          ctx.task_requirements.min_quality_score < 0.7 then
        some ⟨ExecutionStrategy.edge_only, HardReason.urgent_low_quality⟩
      else none
    match ctx.network_state with
    | none => urgent
    | some net =>
      if net.is_weak_network then
        some ⟨ExecutionStrategy.edge_only, HardReason.weak_network_flag⟩
      else if cfg.weak_network_rtt_threshold < net.rtt_ms then
        some ⟨ExecutionStrategy.edge_only, HardReason.high_rtt⟩
      else urgent

/-! ### The six rules as the claim states them

The definitions below are written from the WORDS of claim C10 (one rule
per clause, in the claim's order), to be compared with
`HardConstraintChecker.check` above, which is transcribed from the source.
-/

/-- Claim rule 1: hardware overload (`gpu_usage` above the GPU threshold on
gpu devices, `cpu_usage` above the CPU threshold otherwise) → CLOUD_DIRECT,
with the matching reason. -/
def claimRuleOverload (cfg : HardConfig) (ctx : DecisionContext) :
    Option HardDecision :=
  if ctx.system_state.device_type = "gpu" then
    if cfg.gpu_overload_threshold < ctx.system_state.gpu_usage then
      some ⟨ExecutionStrategy.cloud_direct, HardReason.gpu_overload⟩
    else none
  else
    if cfg.cpu_overload_threshold < ctx.system_state.cpu_usage then
      some ⟨ExecutionStrategy.cloud_direct, HardReason.cpu_overload⟩
    else none

/-- Claim rule 2: `memory_available_mb` below the critical level →
CLOUD_DIRECT. -/
def claimRuleMemory (cfg : HardConfig) (ctx : DecisionContext) :
    Option HardDecision :=
  if ctx.system_state.memory_available_mb < cfg.memory_critical_mb then
    some ⟨ExecutionStrategy.cloud_direct, HardReason.memory_low⟩
  else none

/-- Claim rule 3: `max_latency_ms` below the ultra-low-latency level →
EDGE_ONLY. -/
def claimRuleLatency (cfg : HardConfig) (ctx : DecisionContext) :
    Option HardDecision :=
  if (ctx.task_requirements.max_latency_ms : ℚ) < cfg.ultra_low_latency_ms then
    some ⟨ExecutionStrategy.edge_only, HardReason.ultra_low_latency⟩
  else none

/-- Claim rule 4: `privacy_level ≥ 2` → EDGE_ONLY. -/
def claimRulePrivacy (_cfg : HardConfig) (ctx : DecisionContext) :
    Option HardDecision :=
  if 2 ≤ ctx.task_requirements.privacy_level then
    some ⟨ExecutionStrategy.edge_only, HardReason.privacy_sensitive⟩
  else none

/-- Claim rule 5: network state present with `is_weak_network` true or
`rtt_ms` above the weak-network RTT threshold → EDGE_ONLY (the two
sub-checks carry the source's two distinct reasons, tried in order). -/
def claimRuleNetwork (cfg : HardConfig) (ctx : DecisionContext) :
    Option HardDecision :=
  match ctx.network_state with
  | none => none
  | some net =>
    if net.is_weak_network then
      some ⟨ExecutionStrategy.edge_only, HardReason.weak_network_flag⟩
    else if cfg.weak_network_rtt_threshold < net.rtt_ms then
      some ⟨ExecutionStrategy.edge_only, HardReason.high_rtt⟩
    else none

/-- Claim rule 6: `priority ≥ 3` and `min_quality_score < 0.7` →
EDGE_ONLY. -/
def claimRuleUrgent (_cfg : HardConfig) (ctx : DecisionContext) :
    Option HardDecision :=
  if 3 ≤ ctx.task_requirements.priority ∧
      ctx.task_requirements.min_quality_score < 0.7 then
    some ⟨ExecutionStrategy.edge_only, HardReason.urgent_low_quality⟩
  else none

/-- The six rules of claim C10, in the claim's fixed order. -/
def claimHardRules (cfg : HardConfig) :
    List (DecisionContext → Option HardDecision) :=
  [claimRuleOverload cfg, claimRuleMemory cfg, claimRuleLatency cfg,
   claimRulePrivacy cfg, claimRuleNetwork cfg, claimRuleUrgent cfg]

/-- First-match-wins evaluation of the claim's rule list: the strategy and
reason of the first rule that matches, `none` when no rule matches. -/
def claimFirstMatch (cfg : HardConfig) (ctx : DecisionContext) :
    Option HardDecision :=
  (claimHardRules cfg).findSome? (fun rule => rule ctx)

/-! ## MultiObjectiveScorer (`edge/decision_engine.py` lines 112-298) -/

/-- `ScoredStrategy` dataclass, `common/types.py` lines 178-182. -/
structure ScoredStrategy where
  strategy : ExecutionStrategy
  score : ℚ
deriving DecidableEq, Repr

/-- Weights and reference latencies of `MultiObjectiveScorer.__init__`
(lines 115-130), with the source defaults. The history tracker is always
present in the pipeline (`f1_decision.py` line 61), so only the
`enable_history_scoring` flag is kept from the `if self.enable_history_scoring
and self.history_tracker` test. -/
structure ScorerConfig where
  w_latency : ℚ := 0.4
  w_cost : ℚ := 0.3
  w_quality : ℚ := 0.3
  ref_edge_latency_ms : ℚ := 30
  ref_cloud_latency_ms : ℚ := 200
  ref_speculative_latency_ms : ℚ := 80
  enable_history_scoring : Bool := true
deriving DecidableEq, Repr

/-- The `base_latency` dictionary of `_score_latency` (lines 198-213). -/
def MultiObjectiveScorer.base_latency (cfg : ScorerConfig)
    (strategy : ExecutionStrategy) : ℚ :=
  match strategy with
  | ExecutionStrategy.edge_only => cfg.ref_edge_latency_ms
  | ExecutionStrategy.cloud_direct => cfg.ref_cloud_latency_ms
  | ExecutionStrategy.speculative_standard => cfg.ref_speculative_latency_ms
  | ExecutionStrategy.adaptive_confidence => cfg.ref_speculative_latency_ms * 0.9

/-- The latency projected for a strategy by `_score_latency`
(lines 190-226): the historical mean of the last 20 records when at least
5 exist (or the configured estimate otherwise), plus `2 * rtt` for
CLOUD_DIRECT and `1 * rtt` for the speculative strategies when a network
state is present. -/
def MultiObjectiveScorer.projected_latency (cfg : ScorerConfig)
    (tracker : HistoryTracker) (strategy : ExecutionStrategy)
    (ctx : DecisionContext) : ℚ :=
  let latency :=
    if cfg.enable_history_scoring then
      if 5 ≤ (tracker.get_records_by_strategy strategy (some 20)).length then
        tracker.get_avg_latency (some strategy) 20
      else MultiObjectiveScorer.base_latency cfg strategy
    else MultiObjectiveScorer.base_latency cfg strategy
  match ctx.network_state with
  | none => latency
  | some net =>
    if strategy = ExecutionStrategy.cloud_direct then
      latency + 2 * net.rtt_ms
    else if strategy = ExecutionStrategy.speculative_standard ∨
        strategy = ExecutionStrategy.adaptive_confidence then
      latency + net.rtt_ms
    else latency

/-- `MultiObjectiveScorer._score_latency` (lines 182-236): zero when the
projected latency exceeds the SLO, else `max(0, 1 - latency/slo)`. -/
def MultiObjectiveScorer.score_latency (cfg : ScorerConfig)
    (tracker : HistoryTracker) (strategy : ExecutionStrategy)
    (ctx : DecisionContext) : ℚ :=
  let latency := MultiObjectiveScorer.projected_latency cfg tracker strategy ctx
  let slo_latency := (ctx.task_requirements.max_latency_ms : ℚ)
  if slo_latency < latency then 0
  else max 0 (1 - latency / slo_latency)

/-- `MultiObjectiveScorer._score_cost` (lines 238-250). -/
def MultiObjectiveScorer.score_cost (strategy : ExecutionStrategy) : ℚ :=
  match strategy with
  | ExecutionStrategy.edge_only => 1
  | ExecutionStrategy.speculative_standard => 0.6
  | ExecutionStrategy.adaptive_confidence => 0.7
  | ExecutionStrategy.cloud_direct => 0

/-- `MultiObjectiveScorer._score_quality` (lines 252-298). -/
def MultiObjectiveScorer.score_quality (cfg : ScorerConfig)
    (tracker : HistoryTracker) (strategy : ExecutionStrategy)
    (ctx : DecisionContext) : ℚ :=
  let base_quality : ℚ :=
    match strategy with
    | ExecutionStrategy.edge_only => 0.7
    | ExecutionStrategy.cloud_direct => 1
    | ExecutionStrategy.speculative_standard => 0.95
    | ExecutionStrategy.adaptive_confidence => 0.92
  let base_quality :=
    if cfg.enable_history_scoring then
      let success_rate := tracker.get_success_rate (some strategy) 20
      if strategy = ExecutionStrategy.speculative_standard ∨
          strategy = ExecutionStrategy.adaptive_confidence then
        let acceptance_rate := tracker.get_recent_acceptance_rate (some strategy) 20
        if 5 ≤ (tracker.get_records_by_strategy strategy (some 20)).length then
          base_quality * success_rate * (0.8 + 0.2 * acceptance_rate)
        else base_quality
      else
        if 5 ≤ (tracker.get_records_by_strategy strategy (some 20)).length then
          base_quality * success_rate
        else base_quality
    else base_quality
  if 0.9 < ctx.task_requirements.min_quality_score ∧
      (strategy = ExecutionStrategy.cloud_direct ∨
       strategy = ExecutionStrategy.speculative_standard) then
    min 1 (base_quality + 0.1)
  else base_quality

/-- `MultiObjectiveScorer._calculate_score` (lines 149-180):
weighted sum of the three axis scores, plus a `0.1 * latency_score` bonus
for priority ≥ 2. -/
def MultiObjectiveScorer.calculate_score (cfg : ScorerConfig)
    (tracker : HistoryTracker) (strategy : ExecutionStrategy)
    (ctx : DecisionContext) : ℚ :=
  let latency_score := MultiObjectiveScorer.score_latency cfg tracker strategy ctx
  let cost_score := MultiObjectiveScorer.score_cost strategy
  let quality_score := MultiObjectiveScorer.score_quality cfg tracker strategy ctx
  let total_score := cfg.w_latency * latency_score + cfg.w_cost * cost_score +
    cfg.w_quality * quality_score
  if 2 ≤ ctx.task_requirements.priority then total_score + 0.1 * latency_score
  else total_score

/-- `MultiObjectiveScorer.score_strategies` (lines 132-147): score the
four strategies, in the source's list order. -/
def MultiObjectiveScorer.score_strategies (cfg : ScorerConfig)
    (tracker : HistoryTracker) (ctx : DecisionContext) : List ScoredStrategy :=
  [ExecutionStrategy.edge_only, ExecutionStrategy.cloud_direct,
   ExecutionStrategy.speculative_standard,
   ExecutionStrategy.adaptive_confidence].map
    (fun s => ⟨s, MultiObjectiveScorer.calculate_score cfg tracker s ctx⟩)

/-! ## ExecutionPlanner (`edge/execution_planner.py`) -/

/-- Python `int(x)` on a float: truncation towards zero. -/
def pyInt (q : ℚ) : ℤ :=
  if 0 ≤ q then ⌊q⌋ else ⌈q⌉

/-- The `confidence_threshold` entry of a parameter dictionary: the source
stores either a number or the string `'dynamic'`
(`execution_planner.py` lines 37, 42). -/
inductive CTParam
  | dynamic
  | value (q : ℚ)
deriving DecidableEq, Repr

/-- The parameter dictionary built by the planner: each field models one
key that the source may put in the dict (`strategy_defaults` plus the
adjustments), `none` meaning the key is absent. -/
structure PlanParams where
  draft_max_tokens : Option ℤ := none
  max_tokens : Option ℤ := none
  use_kv_cache : Option Bool := none
  confidence_threshold : Option CTParam := none
  verify_timeout_ms : Option ℚ := none
deriving DecidableEq, Repr

/-- `ExecutionPlan` dataclass, `common/types.py` lines 162-170. The
`reason` string is `some r` for a hard-constraint message and `none` for
the `Score: ...` / fallback messages. -/
structure ExecutionPlan where
  strategy : ExecutionStrategy
  params : PlanParams
  confidence_threshold : ℚ := 0.8
  draft_max_tokens : ℤ := 64
  reason : Option HardReason := none
  score : ℚ := 0
deriving DecidableEq, Repr

/-- Per-mode hardware sizing of `ExecutionPlanner.__init__`
(lines 21-23), with the `.get` defaults of lines 98-119. -/
structure HardwareModeConfig where
  edge_only_max_tokens : ℤ := 256
  collaborative_draft_tokens : ℤ := 96
deriving DecidableEq, Repr

/-- `ExecutionPlanner` configuration: the `gpu_mode` / `cpu_mode`
sub-configurations (source defaults 256/96 and 128/48). -/
structure PlannerConfig where
  gpu_mode : HardwareModeConfig := {}
  cpu_mode : HardwareModeConfig := { edge_only_max_tokens := 128,
                                     collaborative_draft_tokens := 48 }
deriving DecidableEq, Repr

/-- `ExecutionPlanner.strategy_defaults` (lines 26-45). -/
def ExecutionPlanner.strategy_defaults (strategy : ExecutionStrategy) :
    PlanParams :=
  match strategy with
  | ExecutionStrategy.edge_only =>
    { draft_max_tokens := some 128, use_kv_cache := some true }
  | ExecutionStrategy.cloud_direct =>
    { max_tokens := some 128, use_kv_cache := some true }
  | ExecutionStrategy.speculative_standard =>
    { draft_max_tokens := some 64,
      confidence_threshold := some (CTParam.value 0.8),
      verify_timeout_ms := some 5000 }
  | ExecutionStrategy.adaptive_confidence =>
    { draft_max_tokens := some 64,
      confidence_threshold := some CTParam.dynamic,
      verify_timeout_ms := some 5000 }

/-- `ExecutionPlanner._adjust_params` (lines 79-149): hardware sizing of
the draft length, latency compression for the speculative strategies,
quality adjustment of a numeric confidence threshold, and timeout widening
under load. -/
def ExecutionPlanner.adjust_params (pcfg : PlannerConfig)
    (strategy : ExecutionStrategy) (base_params : PlanParams)
    (ctx : DecisionContext) : PlanParams :=
  let device_type := ctx.system_state.device_type
  -- hardware sizing (lines 94-119)
  let params :=
    if device_type = "gpu" then
      if strategy = ExecutionStrategy.edge_only then
        { base_params with
          draft_max_tokens := some pcfg.gpu_mode.edge_only_max_tokens }
      else if strategy = ExecutionStrategy.speculative_standard ∨
          strategy = ExecutionStrategy.adaptive_confidence then
        { base_params with
          draft_max_tokens := some pcfg.gpu_mode.collaborative_draft_tokens }
      else base_params
    else
      if strategy = ExecutionStrategy.edge_only then
        { base_params with
          draft_max_tokens := some pcfg.cpu_mode.edge_only_max_tokens }
      else if strategy = ExecutionStrategy.speculative_standard ∨
          strategy = ExecutionStrategy.adaptive_confidence then
        { base_params with
          draft_max_tokens := some pcfg.cpu_mode.collaborative_draft_tokens }
      else base_params
  -- latency compression (lines 122-132); the subscript
  -- `params['draft_max_tokens']` is always present for the speculative
  -- strategies (set just above), so the `none` arm is unreachable
  let params :=
    if strategy = ExecutionStrategy.speculative_standard ∨
        strategy = ExecutionStrategy.adaptive_confidence then
      match params.draft_max_tokens with
      | none => params
      | some cur =>
        let slo_latency := ctx.task_requirements.max_latency_ms
        if slo_latency < 500 then
          { params with
            draft_max_tokens := some (max (Int.fdiv cur 3) (min cur 32)) }
        else if slo_latency < 1000 then
          { params with draft_max_tokens := some (pyInt ((cur : ℚ) * 0.75)) }
        else params
    else params
  -- quality adjustment of the threshold (lines 135-137)
  let params :=
    if 0.9 < ctx.task_requirements.min_quality_score then
      match params.confidence_threshold with
      | some (CTParam.value v) =>
        { params with confidence_threshold := some (CTParam.value (max v 0.85)) }
      | _ => params
    else params
  -- timeout widening under load (lines 140-147)
  if device_type = "gpu" ∧ 70 < ctx.system_state.gpu_usage then
    match params.verify_timeout_ms with
    | some t => { params with verify_timeout_ms := some ((pyInt (t * 1.2) : ℚ)) }
    | none => params
  else if device_type = "cpu" ∧ 80 < ctx.system_state.cpu_usage then
    match params.verify_timeout_ms with
    | some t => { params with verify_timeout_ms := some ((pyInt (t * 1.2) : ℚ)) }
    | none => params
  else params

/-- `ExecutionPlanner._calculate_confidence_threshold` (lines 151-181). -/
def ExecutionPlanner.calculate_confidence_threshold
    (strategy : ExecutionStrategy) (ctx : DecisionContext) : ℚ :=
  match strategy with
  | ExecutionStrategy.speculative_standard => 0.8
  | ExecutionStrategy.adaptive_confidence =>
    let base_threshold : ℚ := 0.75
    let base_threshold :=
      if 0.9 < ctx.task_requirements.min_quality_score then base_threshold + 0.1
      else if ctx.task_requirements.min_quality_score < 0.7 then
        base_threshold - 0.1
      else base_threshold
    let base_threshold :=
      if 3 ≤ ctx.task_requirements.priority then base_threshold - 0.05
      else base_threshold
    max 0.5 (min 0.95 base_threshold)
  | _ => 0.8

/-- `ExecutionPlanner.generate_plan` (lines 47-77). The plan's
`confidence_threshold` field is `adjusted_params.get('confidence_threshold',
0.8)`; after the overwrite of lines 65-68 the entry is numeric for the
speculative strategies and absent otherwise, so the `dynamic` arm of the
final read is unreachable and mapped to the `.get` default. -/
def ExecutionPlanner.generate_plan (pcfg : PlannerConfig)
    (strategy : ExecutionStrategy) (ctx : DecisionContext) (score : ℚ := 0)
    (reason : Option HardReason := none) : ExecutionPlan :=
  let base_params := ExecutionPlanner.strategy_defaults strategy
  let adjusted_params := ExecutionPlanner.adjust_params pcfg strategy base_params ctx
  let adjusted_params :=
    if strategy = ExecutionStrategy.speculative_standard ∨
        strategy = ExecutionStrategy.adaptive_confidence then
      { adjusted_params with
        confidence_threshold := some (CTParam.value
          (ExecutionPlanner.calculate_confidence_threshold strategy ctx)) }
    else adjusted_params
  { strategy := strategy
    params := adjusted_params
    confidence_threshold :=
      match adjusted_params.confidence_threshold with
      | some (CTParam.value q) => q
      | _ => 0.8
    draft_max_tokens := adjusted_params.draft_max_tokens.getD 64
    reason := reason
    score := score }

/-! ## The decision pipeline (`edge/f1_decision.py`) -/

/-- Python `max(xs, key=...)` over a non-empty list: the first element of
maximal key. -/
def pyMaxBy (key : α → ℚ) : α → List α → α
  | best, [] => best
  | best, x :: xs => pyMaxBy key (if key best < key x then x else best) xs

/-- `F1_DecisionModule._fallback_plan` (lines 207-228): SPECULATIVE_STANDARD
when the observed CPU usage is below 90, else CLOUD_DIRECT. (The
`except` arm returning EDGE_ONLY guards against a malformed context and is
unreachable here.) -/
def F1_DecisionModule.fallback_plan (pcfg : PlannerConfig)
    (ctx : DecisionContext) : ExecutionPlan :=
  let strategy :=
    if ctx.system_state.cpu_usage < 90 then
      ExecutionStrategy.speculative_standard
    else ExecutionStrategy.cloud_direct
  ExecutionPlanner.generate_plan pcfg strategy ctx 0 none

/-- The decision pipeline of `F1_DecisionModule.decide_async`
(lines 92-131), given a built `DecisionContext`: consult the hard
constraints; on a hit, plan the forced strategy with the hit's reason;
otherwise score the four strategies, drop the scores ≤ 0, and plan the
best remaining one, falling back when all scores are zero. (The adaptive
update of step 0 and the context construction are modelled separately;
the `except` fallback of lines 133-145 is unreachable in the model.) -/
def F1_DecisionModule.decide (hcfg : HardConfig) (scfg : ScorerConfig)
    (pcfg : PlannerConfig) (tracker : HistoryTracker)
    (ctx : DecisionContext) : ExecutionPlan :=
  match HardConstraintChecker.check hcfg ctx with
  | some hard_decision =>
    ExecutionPlanner.generate_plan pcfg hard_decision.strategy ctx 0
      (some hard_decision.reason)
  | none =>
    let scored_strategies := MultiObjectiveScorer.score_strategies scfg tracker ctx
    let valid_strategies := scored_strategies.filter (fun s => 0 < s.score)
    match valid_strategies with
    | [] => F1_DecisionModule.fallback_plan pcfg ctx
    | v :: vs =>
      let best_strategy := pyMaxBy (fun s => s.score) v vs
      ExecutionPlanner.generate_plan pcfg best_strategy.strategy ctx
        best_strategy.score none

/-! ## Edge execution branches (`edge/edge_server.py`) -/

/-- `ConfidenceMetrics` dataclass, `common/types.py` lines 44-53
(the `token_probs` list is not read by any code modelled here and is
omitted). -/
structure ConfidenceMetrics where
  confidence_score : ℚ
  strategy : ConfidenceStrategy := ConfidenceStrategy.max_prob
  entropy : ℚ := 0
  max_prob : ℚ := 0
  min_prob : ℚ := 0
  avg_prob : ℚ := 0
deriving DecidableEq, Repr

/-- `DraftResponse` dataclass, `common/types.py` lines 123-130
(the free-form `kv_cache_info` dict is not read by the code modelled here
and is omitted). -/
structure DraftResponse where
  draft_tokens : List String
  draft_token_ids : List ℤ
  confidence : ConfidenceMetrics
  latency_ms : ℚ
deriving DecidableEq, Repr

/-- The result dictionary assembled by each `EdgeServer._execute_*` branch
(`edge/edge_server.py` lines 157-264): every branch fills exactly these
seven keys. -/
structure ExecResult where
  text : String
  tokens : List String
  confidence_score : ℚ
  used_draft_verify : Bool
  edge_latency_ms : ℚ
  cloud_latency_ms : ℚ
  acceptance_rate : ℚ
deriving DecidableEq, Repr

/-- The `data` dictionary of a `/verify` reply as read by
`_execute_speculative` (lines 244-253). -/
structure VerifyData where
  final_text : String
  verified_tokens : List String
  acceptance_rate : ℚ
  latency_ms : ℚ := 0
deriving DecidableEq, Repr

/-- What the edge observes from its POST to the cloud `/verify` endpoint:
either the whole `try` body raises (`exn` — connection failure, timeout,
or a non-JSON reply body such as a bare 503), or a JSON document with a
`type` tag and a data payload arrives. -/
inductive VerifyOutcome
  | exn
  | reply (tag : String) (data : VerifyData)
deriving DecidableEq, Repr

/-- `EdgeServer._execute_edge_only` (lines 157-173), given the draft the
generator produced for the request. -/
def EdgeServer.execute_edge_only (draft_response : DraftResponse) : ExecResult :=
  { text := String.join draft_response.draft_tokens
    tokens := draft_response.draft_tokens
    confidence_score := draft_response.confidence.confidence_score
    used_draft_verify := false
    edge_latency_ms := draft_response.latency_ms
    cloud_latency_ms := 0
    acceptance_rate := 0 }

/-- What the edge observes from its POST to the cloud direct-inference
endpoint (`_execute_cloud_direct`, lines 175-211): a 200 reply with a data
payload, or anything else (non-200 status, exception), which the source
turns into the edge-only fallback. -/
inductive CloudOutcome
  | ok (text : String) (tokens : List String) (latency_ms : ℚ)
  | fail
deriving DecidableEq, Repr

/-- `EdgeServer._execute_cloud_direct` (lines 175-211). -/
def EdgeServer.execute_cloud_direct (outcome : CloudOutcome)
    (draft_response : DraftResponse) : ExecResult :=
  match outcome with
  | CloudOutcome.ok text tokens latency_ms =>
    { text := text
      tokens := tokens
      confidence_score := 1
      used_draft_verify := false
      edge_latency_ms := 0
      cloud_latency_ms := latency_ms
      acceptance_rate := 0 }
  | CloudOutcome.fail => EdgeServer.execute_edge_only draft_response

/-- `EdgeServer._execute_speculative` (lines 213-264). The draft is
generated, then the verify request is POSTed unconditionally — the source
contains no confidence check. The second component records that the
verify call was attempted (it is on every path). When the reply carries a
tag other than `verify_response` (as the cloud's own error payloads do),
the Python function falls off its end and returns `None`. -/
def EdgeServer.execute_speculative (_plan : ExecutionPlan)
    (draft_response : DraftResponse) (outcome : VerifyOutcome) :
    Option ExecResult × Bool :=
  match outcome with
  | VerifyOutcome.exn =>
    (some { text := String.join draft_response.draft_tokens
            tokens := draft_response.draft_tokens
            confidence_score := draft_response.confidence.confidence_score
            acceptance_rate := 0
            used_draft_verify := false
            edge_latency_ms := draft_response.latency_ms
            cloud_latency_ms := 0 }, true)
  | VerifyOutcome.reply tag data =>
    if tag = "verify_response" then
      (some { text := data.final_text
              tokens := data.verified_tokens
              confidence_score := draft_response.confidence.confidence_score
              acceptance_rate := data.acceptance_rate
              used_draft_verify := true
              edge_latency_ms := draft_response.latency_ms
              cloud_latency_ms := data.latency_ms }, true)
    else (none, true)

/-- `EdgeServer._execute_adaptive` (lines 266-267): a one-line delegation
to `_execute_speculative`. -/
def EdgeServer.execute_adaptive (plan : ExecutionPlan)
    (draft_response : DraftResponse) (outcome : VerifyOutcome) :
    Option ExecResult × Bool :=
  EdgeServer.execute_speculative plan draft_response outcome

/-- `EdgeServer.process_inference` (lines 114-155), from the point where
the execution plan has been produced by `F1_DecisionModule.decide`:
dispatch on the plan's strategy, then append an `ExecutionRecord` with
`success=True` built from the branch result. When the speculative branch
returns `None` (non-`verify_response` JSON reply), the subsequent
`result['total_latency_ms'] = ...` raises a `TypeError` before the record
is appended, and the request surfaces as an error — modelled as `none`.
The wall-clock values (`now`, `total_latency_ms`) are parameters. -/
def EdgeServer.process_inference (plan : ExecutionPlan)
    (draft_response : DraftResponse) (verify_outcome : VerifyOutcome)
    (cloud_outcome : CloudOutcome) (tracker : HistoryTracker)
    (now total_latency_ms : ℚ) : Option (ExecResult × HistoryTracker) :=
  let branch : Option ExecResult :=
    match plan.strategy with
    | ExecutionStrategy.edge_only =>
      some (EdgeServer.execute_edge_only draft_response)
    | ExecutionStrategy.cloud_direct =>
      some (EdgeServer.execute_cloud_direct cloud_outcome draft_response)
    | ExecutionStrategy.speculative_standard =>
      (EdgeServer.execute_speculative plan draft_response verify_outcome).1
    | ExecutionStrategy.adaptive_confidence =>
      (EdgeServer.execute_adaptive plan draft_response verify_outcome).1
  match branch with
  | none => none
  | some result =>
    let record : ExecutionRecord :=
      { timestamp := now
        strategy := plan.strategy
        acceptance_rate := result.acceptance_rate
        latency_ms := total_latency_ms
        edge_latency_ms := result.edge_latency_ms
        cloud_latency_ms := result.cloud_latency_ms
        confidence_score := result.confidence_score
        success := true
        tokens_generated := result.tokens.length }
    some (result, tracker.add_record record)

/-! ## Cloud verifier (`cloud/draft_verifier.py`, `cloud/cloud_server.py`) -/

/-- `VerifyRequest` dataclass, `common/types.py` lines 132-138: these four
fields are ALL the fields the dataclass declares. -/
structure VerifyRequest where
  prompt : String
  draft_tokens : List String
  draft_token_ids : List ℤ
  confidence_threshold : ℚ := 0.8
deriving DecidableEq, Repr

/-- A Python value held by a dataclass field, as far as the verifier's
attribute reads are concerned. -/
inductive PyVal
  | str (s : String)
  | strList (l : List String)
  | intList (l : List ℤ)
  | rat (q : ℚ)
  | int (n : ℤ)
deriving DecidableEq, Repr

/-- Python attribute access on a `VerifyRequest` instance: defined exactly
for the four declared fields, `none` (an `AttributeError`) for every other
name. -/
def VerifyRequest.getattr (r : VerifyRequest) : String → Option PyVal
  | "prompt" => some (PyVal.str r.prompt)
  | "draft_tokens" => some (PyVal.strList r.draft_tokens)
  | "draft_token_ids" => some (PyVal.intList r.draft_token_ids)
  | "confidence_threshold" => some (PyVal.rat r.confidence_threshold)
  | _ => none

/-- `VerifyResponse` dataclass, `common/types.py` lines 140-150. -/
structure VerifyResponse where
  verified_tokens : List String
  verified_token_ids : List ℤ
  accepted_count : ℤ
  total_count : ℤ
  acceptance_rate : ℚ
  corrected_positions : List ℤ
  final_text : String
  latency_ms : ℚ := 0
deriving DecidableEq, Repr

/-- The verification loop of `DraftVerifier._verify_tokens_async`
(lines 119-138): walk the draft; a token whose simulated acceptance
probability (`draws i`, the i-th `np.random.uniform(0.6, 0.98)` draw)
exceeds the acceptance threshold is kept; the first rejected position gets
a `[CORRECTED_i]` token and the loop breaks. -/
def verifyLoop (draws : ℕ → ℚ) (acceptance_threshold : ℚ) :
    List String → ℕ → List String × List ℤ
  | [], _ => ([], [])
  | draft_token :: rest, i =>
    if acceptance_threshold < draws i then
      let tail := verifyLoop draws acceptance_threshold rest (i + 1)
      (draft_token :: tail.1, tail.2)
    else
      (["[CORRECTED_" ++ toString i ++ "]"], [(i : ℤ)])

/-- `DraftVerifier._verify_tokens_async` (lines 101-147): the loop above,
then padding with `_cloud_token_j_` tokens up to `max_tokens`. -/
def DraftVerifier.verify_tokens_async (draws : ℕ → ℚ)
    (acceptance_threshold : ℚ) (draft_tokens : List String)
    (max_tokens : ℤ) : List String × List ℤ :=
  let result := verifyLoop draws acceptance_threshold draft_tokens 0
  let verified_tokens := result.1
  if (verified_tokens.length : ℤ) < max_tokens then
    let remaining := (max_tokens - verified_tokens.length).toNat
    (verified_tokens ++
      (List.range remaining).map (fun j => "_cloud_token_" ++ toString j ++ "_"),
     result.2)
  else result

/-- The body of `DraftVerifier.verify_draft` (lines 63-99) given the value
that `request.max_verify_tokens` would have had: verify the tokens,
compute `acceptance_rate = accepted_count / total_count if total_count > 0
else 0.0`, and assemble the response. The wall-clock latency is a
parameter. -/
def DraftVerifier.verify_draft_body (prompt : String)
    (draft_tokens : List String) (max_verify_tokens : ℤ) (draws : ℕ → ℚ)
    (acceptance_threshold : ℚ) (latency_ms : ℚ := 0) : VerifyResponse :=
  let result := DraftVerifier.verify_tokens_async draws acceptance_threshold
    draft_tokens max_verify_tokens
  let verified_tokens := result.1
  let corrected_positions := result.2
  let accepted_count : ℤ := draft_tokens.length - corrected_positions.length
  let total_count : ℤ := draft_tokens.length
  let acceptance_rate : ℚ :=
    if 0 < total_count then (accepted_count : ℚ) / (total_count : ℚ) else 0
  { verified_tokens := verified_tokens
    verified_token_ids := []
    accepted_count := accepted_count
    total_count := total_count
    acceptance_rate := acceptance_rate
    corrected_positions := corrected_positions
    final_text := prompt ++ String.join verified_tokens
    latency_ms := latency_ms }

/-- `DraftVerifier.verify_draft` (lines 50-99). Line 76 reads
`request.max_verify_tokens`; the attribute access is modelled by
`VerifyRequest.getattr`, so the call raises an `AttributeError` (an
`Except.error`) unless the lookup produces an int. -/
def DraftVerifier.verify_draft (request : VerifyRequest) (draws : ℕ → ℚ)
    (acceptance_threshold : ℚ) (latency_ms : ℚ := 0) :
    Except String VerifyResponse :=
  match request.getattr "max_verify_tokens" with
  | some (PyVal.int m) =>
    Except.ok (DraftVerifier.verify_draft_body request.prompt
      request.draft_tokens m draws acceptance_threshold latency_ms)
  | some _ => Except.error "TypeError"
  | none =>
    Except.error "AttributeError: VerifyRequest has no attribute max_verify_tokens"

/-- The JSON document `CloudServer.handle_verify_request` answers with. -/
inductive CloudReply
  | verify_response (data : VerifyResponse)
  | error_reply (message : String)
deriving DecidableEq, Repr

/-- `CloudServer.handle_verify_request` (`cloud/cloud_server.py` lines
75-105): call the verifier; wrap a success in a `verify_response` payload;
catch any exception and answer with an `error`-type payload. -/
def CloudServer.handle_verify_request (request : VerifyRequest)
    (draws : ℕ → ℚ) (acceptance_threshold : ℚ) (latency_ms : ℚ := 0) :
    CloudReply :=
  match DraftVerifier.verify_draft request draws acceptance_threshold latency_ms with
  | Except.ok verify_response => CloudReply.verify_response verify_response
  | Except.error e => CloudReply.error_reply e

/-! ## Concrete inputs used by counterexamples and witnesses -/

/-- A priority-5, privacy-2 request. -/
def privacyRequest : InferenceRequest :=
  { prompt := "secret"
    requirements := { max_latency_ms := 1000, min_quality_score := 0.8,
                      priority := 5, privacy_level := 2 } }

/-- A privacy-2 context on an overloaded CPU device (cpu_usage 98 > 95). -/
def ctxPrivacyOverload : DecisionContext :=
  { request := privacyRequest
    system_state := { cpu_usage := 98, memory_available_mb := 4000 }
    task_requirements := privacyRequest.requirements
    network_state := none }

/-- A privacy-2 context on a healthy CPU device. -/
def ctxPrivacyHealthy : DecisionContext :=
  { request := privacyRequest
    system_state := { cpu_usage := 50, memory_available_mb := 2000 }
    task_requirements := privacyRequest.requirements
    network_state := some { rtt_ms := 20 } }

/-- An EDGE_ONLY record with total latency 60 ms, successful. -/
def edgeRecord60 : ExecutionRecord :=
  { timestamp := 0, strategy := ExecutionStrategy.edge_only
    acceptance_rate := 0, latency_ms := 60, edge_latency_ms := 60
    cloud_latency_ms := 0, confidence_score := 0.9, success := true
    tokens_generated := 10 }

/-- Five EDGE_ONLY records of latency 60: enough history for the scorer to
project 60 ms for EDGE_ONLY. -/
def trackerEdge60 : HistoryTracker :=
  (List.replicate 5 edgeRecord60).foldl HistoryTracker.add_record
    (HistoryTracker.mk0 100)

/-- A healthy context whose SLO (50 ms) sits below every strategy's
projected latency, yet triggers no hard constraint. -/
def ctxTightSlo : DecisionContext :=
  { request := { prompt := "p",
                 requirements := { max_latency_ms := 50, min_quality_score := 0.8,
                                   priority := 1, privacy_level := 0 } }
    system_state := { cpu_usage := 50, memory_available_mb := 2000 }
    task_requirements := { max_latency_ms := 50, min_quality_score := 0.8,
                           priority := 1, privacy_level := 0 }
    network_state := none }

/-- A SPECULATIVE_STANDARD record with acceptance rate 0.95. -/
def specRecord95 : ExecutionRecord :=
  { timestamp := 0, strategy := ExecutionStrategy.speculative_standard
    acceptance_rate := 0.95, latency_ms := 70, edge_latency_ms := 20
    cloud_latency_ms := 50, confidence_score := 0.9, success := true
    tokens_generated := 16 }

/-- Twenty SPECULATIVE_STANDARD records with acceptance rate 0.95. -/
def trackerSpec95 : HistoryTracker :=
  (List.replicate 20 specRecord95).foldl HistoryTracker.add_record
    (HistoryTracker.mk0 100)

/-- A single SPECULATIVE_STANDARD record with acceptance rate 0.3. -/
def specRecord30 : ExecutionRecord :=
  { timestamp := 0, strategy := ExecutionStrategy.speculative_standard
    acceptance_rate := 0.3, latency_ms := 75, edge_latency_ms := 25
    cloud_latency_ms := 50, confidence_score := 0.9, success := true
    tokens_generated := 12 }

/-- A tracker holding exactly one speculative record (fewer than 5). -/
def trackerOneSpec : HistoryTracker :=
  (HistoryTracker.mk0 100).add_record specRecord30

/-- A SPECULATIVE_STANDARD plan. -/
def planSpeculative : ExecutionPlan :=
  { strategy := ExecutionStrategy.speculative_standard, params := {} }

/-- An ADAPTIVE_CONFIDENCE plan with the default 0.8 threshold. -/
def planAdaptive : ExecutionPlan :=
  { strategy := ExecutionStrategy.adaptive_confidence, params := {}
    confidence_threshold := 0.8 }

/-- A draft whose confidence score 0.1 sits far below any threshold. -/
def draftLowConfidence : DraftResponse :=
  { draft_tokens := ["a", "b"], draft_token_ids := [1, 2]
    confidence := { confidence_score := 0.1 }, latency_ms := 5 }

/-- A sample draft response. -/
def draftSample : DraftResponse :=
  { draft_tokens := ["h", "i"], draft_token_ids := [7, 8]
    confidence := { confidence_score := 0.9 }, latency_ms := 4 }

/-- A well-formed `/verify` reply payload. -/
def verifyDataSample : VerifyData :=
  { final_text := "pXY", verified_tokens := ["X", "Y"]
    acceptance_rate := 0.5, latency_ms := 3 }

/-! ## Shared helper lemmas -/

/-- The planner hands back exactly the strategy it was asked to plan. -/
theorem generate_plan_strategy_eq (pcfg : PlannerConfig)
    (strategy : ExecutionStrategy) (ctx : DecisionContext) (score : ℚ)
    (reason : Option HardReason) :
    (ExecutionPlanner.generate_plan pcfg strategy ctx score reason).strategy =
      strategy := rfl

/-! ## Claim theorems -/

/-- C4: for every `VerifyRequest` built from its declared fields,
`DraftVerifier.verify_draft` raises `AttributeError` — it reads
`request.max_verify_tokens`, which is not among the dataclass's fields —
and consequently `CloudServer.handle_verify_request` answers every
well-formed verification request with an error-type payload instead of a
`VerifyResponse`. -/
theorem c4_verify_draft_raises_attribute_error (request : VerifyRequest)
    (draws : ℕ → ℚ) (acceptance_threshold latency_ms : ℚ) :
    DraftVerifier.verify_draft request draws acceptance_threshold latency_ms =
      Except.error
        "AttributeError: VerifyRequest has no attribute max_verify_tokens" ∧
    CloudServer.handle_verify_request request draws acceptance_threshold
        latency_ms =
      CloudReply.error_reply
        "AttributeError: VerifyRequest has no attribute max_verify_tokens" :=
  ⟨rfl, rfl⟩

/-- Counterexample to claim C8 as stated: on an empty draft token list the
verifier's acceptance-rate computation yields 0, not the claimed 1.0
(evaluated on the body of `verify_draft` at `max_verify_tokens = 5`,
any draws). -/
theorem c8_counterexample :
    (DraftVerifier.verify_draft_body "p" [] 5 (fun _ => 0.9) 0.8 0).acceptance_rate
      = 0 ∧
    (DraftVerifier.verify_draft_body "p" [] 5 (fun _ => 0.9) 0.8 0).acceptance_rate
      ≠ 1 := by
  constructor
  · rfl
  · decide

/-- C8 (amended): when the draft token list of a verification request is
empty, the acceptance rate computed by the verifier body is 0.0 — the
guard `if total_count > 0` sends the empty draft to the `else 0.0` arm. -/
theorem c8_empty_draft_zero_acceptance (prompt : String)
    (max_verify_tokens : ℤ) (draws : ℕ → ℚ)
    (acceptance_threshold latency_ms : ℚ) :
    (DraftVerifier.verify_draft_body prompt [] max_verify_tokens draws
      acceptance_threshold latency_ms).acceptance_rate = 0 := rfl

/-- C2: in the SPECULATIVE_STANDARD and ADAPTIVE_CONFIDENCE branches, when
the cloud verify call fails or times out (the POST raises), the
orchestrator returns the edge draft text with `used_draft_verify = false`
and `acceptance_rate = 0`, and a record with `success = true` is still
appended to the `HistoryTracker`. -/
theorem c2_verify_failure_returns_draft (plan : ExecutionPlan)
    (draft : DraftResponse) (cloud_outcome : CloudOutcome)
    (tracker : HistoryTracker) (now total_latency_ms : ℚ)
    (h : plan.strategy = ExecutionStrategy.speculative_standard ∨
         plan.strategy = ExecutionStrategy.adaptive_confidence) :
    EdgeServer.process_inference plan draft VerifyOutcome.exn cloud_outcome
        tracker now total_latency_ms =
      some ({ text := String.join draft.draft_tokens
              tokens := draft.draft_tokens
              confidence_score := draft.confidence.confidence_score
              used_draft_verify := false
              edge_latency_ms := draft.latency_ms
              cloud_latency_ms := 0
              acceptance_rate := 0 },
            tracker.add_record
              { timestamp := now
                strategy := plan.strategy
                acceptance_rate := 0
                latency_ms := total_latency_ms
                edge_latency_ms := draft.latency_ms
                cloud_latency_ms := 0
                confidence_score := draft.confidence.confidence_score
                success := true
                tokens_generated := draft.draft_tokens.length }) := by
  rcases h with h | h <;>
    simp [EdgeServer.process_inference, EdgeServer.execute_speculative,
      EdgeServer.execute_adaptive, h]

/-- Witness for C2: the fallback evaluated at a concrete speculative plan,
draft and tracker. -/
theorem c2_witness :
    EdgeServer.process_inference planSpeculative draftSample VerifyOutcome.exn
        CloudOutcome.fail (HistoryTracker.mk0 100) 0 12 =
      some ({ text := String.join draftSample.draft_tokens
              tokens := draftSample.draft_tokens
              confidence_score := draftSample.confidence.confidence_score
              used_draft_verify := false
              edge_latency_ms := draftSample.latency_ms
              cloud_latency_ms := 0
              acceptance_rate := 0 },
            (HistoryTracker.mk0 100).add_record
              { timestamp := 0
                strategy := planSpeculative.strategy
                acceptance_rate := 0
                latency_ms := 12
                edge_latency_ms := draftSample.latency_ms
                cloud_latency_ms := 0
                confidence_score := draftSample.confidence.confidence_score
                success := true
                tokens_generated := draftSample.draft_tokens.length }) :=
  c2_verify_failure_returns_draft planSpeculative draftSample CloudOutcome.fail
    (HistoryTracker.mk0 100) 0 12 (Or.inl rfl)

/-- C3 (code bug, failing input evaluated): the request's
`use_confidence_check` is on and the draft confidence 0.1 lies strictly
below the plan threshold 0.8, yet the orchestrator's adaptive branch still
attempts the cloud verify call (second component `true`) and, on a
successful reply, returns the cloud text with `used_draft_verify = true` —
no short-circuit exists; `_execute_adaptive` (whose strategy the source
documents as the one WITH the confidence check) does not even receive the
`use_confidence_check` flag. -/
theorem c3_no_short_circuit_on_low_confidence :
    ({ prompt := "p" } : InferenceRequest).use_confidence_check = true ∧
    draftLowConfidence.confidence.confidence_score <
      planAdaptive.confidence_threshold ∧
    (EdgeServer.execute_adaptive planAdaptive draftLowConfidence
        (VerifyOutcome.reply "verify_response" verifyDataSample)).2 = true ∧
    (EdgeServer.execute_adaptive planAdaptive draftLowConfidence
        (VerifyOutcome.reply "verify_response" verifyDataSample)).1 =
      some { text := "pXY"
             tokens := ["X", "Y"]
             confidence_score := 0.1
             used_draft_verify := true
             edge_latency_ms := 5
             cloud_latency_ms := 3
             acceptance_rate := 0.5 } := by
  refine ⟨rfl, by with_unfolding_all decide, rfl, ?_⟩
  with_unfolding_all decide

/-- One adaptive update keeps the confidence threshold inside
`[threshold_min, threshold_max]`: the sub-5-sample arm returns the input
unchanged, and the other arm ends in the clamp of line 112. -/
theorem calc_threshold_step_bounds (cfg : AdaptiveConfig)
    (hist : HistoryTracker) (t : ℚ) (hmin : cfg.threshold_min ≤ t)
    (hmax : t ≤ cfg.threshold_max) :
    cfg.threshold_min ≤ calculate_adaptive_confidence_threshold cfg hist t ∧
      calculate_adaptive_confidence_threshold cfg hist t ≤ cfg.threshold_max := by
  unfold calculate_adaptive_confidence_threshold
  split_ifs with h
  · exact ⟨hmin, hmax⟩
  · exact ⟨le_max_left _ _, max_le (hmin.trans hmax) (min_le_left _ _)⟩

/-- C6: for every starting confidence threshold within
`[threshold_min, threshold_max]` (default [0.50, 0.95]) and every history
contents, after any number of adaptive updates the confidence threshold
still lies within `[threshold_min, threshold_max]`. -/
theorem c6_threshold_invariant (cfg : AdaptiveConfig)
    (hists : List HistoryTracker) (t0 : ℚ)
    (hmin : cfg.threshold_min ≤ t0) (hmax : t0 ≤ cfg.threshold_max) :
    cfg.threshold_min ≤ adaptiveUpdates cfg hists t0 ∧
      adaptiveUpdates cfg hists t0 ≤ cfg.threshold_max := by
  induction hists generalizing t0 with
  | nil => exact ⟨hmin, hmax⟩
  | cons hd tl ih =>
    have step := calc_threshold_step_bounds cfg hd t0 hmin hmax
    simpa [adaptiveUpdates] using
      ih (calculate_adaptive_confidence_threshold cfg hd t0) step.1 step.2

set_option maxRecDepth 8000 in
/-- Witness for C6 at the default configuration, starting threshold 0.8,
and two updates against the 20-record speculative history. -/
theorem c6_witness :
    ({} : AdaptiveConfig).threshold_min ≤
        adaptiveUpdates {} [trackerSpec95, trackerSpec95] 0.8 ∧
      adaptiveUpdates {} [trackerSpec95, trackerSpec95] 0.8 ≤
        ({} : AdaptiveConfig).threshold_max :=
  c6_threshold_invariant {} [trackerSpec95, trackerSpec95] 0.8
    (by with_unfolding_all decide) (by with_unfolding_all decide)

set_option maxRecDepth 20000 in
/-- C7: with the default configuration,
`calculate_adaptive_confidence_threshold` returns the current threshold
unchanged below 5 SPECULATIVE_STANDARD samples; at 5 or more it returns
the clamp of `current * (1 - α) + (current + adj) * α` with `α = 0.1` and
the piecewise step adjustment (negative and proportional to
`(rate - 0.90) / 0.1` above the target band, positive and proportional to
`(0.80 - rate) / 0.1` below it, zero inside); and from threshold 0.80 with
20 speculative records of acceptance rate 0.95, two updates land strictly
below 0.80 and at or above `threshold_min`. -/
theorem c7_adaptive_threshold_formula :
    (∀ hist t, adaptiveSampleCount hist < 5 →
      calculate_adaptive_confidence_threshold {} hist t = t) ∧
    (∀ hist t, 5 ≤ adaptiveSampleCount hist →
      calculate_adaptive_confidence_threshold {} hist t =
        (let rate := hist.get_recent_acceptance_rate
          (some ExecutionStrategy.speculative_standard) 20
        let adj : ℚ :=
          if 0.90 < rate then -0.05 * ((rate - 0.90) / 0.1)
          else if rate < 0.80 then 0.05 * ((0.80 - rate) / 0.1)
          else 0
        max 0.50 (min 0.95 (t * (1 - 0.1) + (t + adj) * 0.1)))) ∧
    (calculate_adaptive_confidence_threshold {} trackerSpec95
        (calculate_adaptive_confidence_threshold {} trackerSpec95 0.80) < 0.80 ∧
      0.50 ≤ calculate_adaptive_confidence_threshold {} trackerSpec95
        (calculate_adaptive_confidence_threshold {} trackerSpec95 0.80)) := by
  refine ⟨fun hist t h => ?_, fun hist t h => ?_, ?_⟩
  · unfold calculate_adaptive_confidence_threshold
    rw [if_pos h]
  · unfold calculate_adaptive_confidence_threshold
    rw [if_neg (not_lt.mpr h)]
  · constructor <;> with_unfolding_all decide

/-- Witness for C7: the sub-5-sample arm evaluated on an empty history,
and the formula arm evaluated on the 20-record speculative history. -/
theorem c7_witness :
    calculate_adaptive_confidence_threshold {} (HistoryTracker.mk0 100) 0.7
        = 0.7 ∧
      calculate_adaptive_confidence_threshold {} trackerSpec95 0.80 =
        (let rate := trackerSpec95.get_recent_acceptance_rate
          (some ExecutionStrategy.speculative_standard) 20
        let adj : ℚ :=
          if 0.90 < rate then -0.05 * ((rate - 0.90) / 0.1)
          else if rate < 0.80 then 0.05 * ((0.80 - rate) / 0.1)
          else 0
        max 0.50 (min 0.95 (0.80 * (1 - 0.1) + (0.80 + adj) * 0.1))) :=
  ⟨c7_adaptive_threshold_formula.1 (HistoryTracker.mk0 100) 0.7 (by decide),
    c7_adaptive_threshold_formula.2.1 trackerSpec95 0.80
      (by with_unfolding_all decide)⟩

/-- Collapsing the two default-returning guards of
`get_recent_acceptance_rate` over an arbitrary record selection: an empty
selection has an empty filtrate, so the default fires exactly when the
filtered selection is empty. -/
theorem recent_acceptance_core (l : List ExecutionRecord) :
    (if l.isEmpty then (0.8 : ℚ)
     else
       let valid := l.filter (fun r => usesVerification r.strategy)
       if valid.isEmpty then 0.8
       else recordMean (fun r => r.acceptance_rate) valid) =
      (let valid := l.filter (fun r => usesVerification r.strategy)
       if valid.isEmpty then 0.8
       else (valid.map (fun r => r.acceptance_rate)).sum / valid.length) := by
  cases l <;> simp [recordMean]

/-- C9 (amended): `get_recent_acceptance_rate(strategy, n)` returns the
default 0.8 exactly when the selected records (the last `n` of the given
strategy, or the last `n` overall when none is given) contain no
speculative/adaptive record — in particular there is no 5-sample minimum —
and otherwise returns the mean acceptance rate of the speculative/adaptive
records among that selection. -/
theorem c9_recent_acceptance_rate_characterization
    (strategy : Option ExecutionStrategy) (n : ℕ) (t : HistoryTracker) :
    t.get_recent_acceptance_rate strategy n =
      (let records := match strategy with
        | some s => t.get_records_by_strategy s (some n)
        | none => t.get_recent_records n
      let valid := records.filter (fun r => usesVerification r.strategy)
      if valid.isEmpty then 0.8
      else (valid.map (fun r => r.acceptance_rate)).sum / valid.length) := by
  cases strategy with
  | none => exact recent_acceptance_core (t.get_recent_records n)
  | some s => exact recent_acceptance_core (t.get_records_by_strategy s (some n))

/-- Counterexample to claim C9 as stated: a tracker holding a single
SPECULATIVE_STANDARD record (fewer than 5 matching records) whose
acceptance rate is 0.3 — the query returns that mean 0.3, not the claimed
default 0.8. -/
theorem c9_counterexample :
    (trackerOneSpec.get_records_by_strategy
        ExecutionStrategy.speculative_standard (some 20)).length < 5 ∧
      trackerOneSpec.get_recent_acceptance_rate
        (some ExecutionStrategy.speculative_standard) 20 = 0.3 ∧
      trackerOneSpec.get_recent_acceptance_rate
        (some ExecutionStrategy.speculative_standard) 20 ≠ 0.8 := by
  refine ⟨by decide, ?_, ?_⟩ <;> with_unfolding_all decide

/-- When the overload and memory rules do not fire, a privacy level ≥ 2
makes the hard-constraint checker return an EDGE_ONLY decision (through
either the ultra-low-latency rule or the privacy rule, both EDGE_ONLY). -/
theorem check_privacy_yields_edge_only (cfg : HardConfig)
    (ctx : DecisionContext)
    (hpriv : 2 ≤ ctx.task_requirements.privacy_level)
    (hgpu : ctx.system_state.device_type = "gpu" →
      ctx.system_state.gpu_usage ≤ cfg.gpu_overload_threshold)
    (hcpu : ctx.system_state.device_type ≠ "gpu" →
      ctx.system_state.cpu_usage ≤ cfg.cpu_overload_threshold)
    (hmem : cfg.memory_critical_mb ≤ ctx.system_state.memory_available_mb) :
    ∃ r, HardConstraintChecker.check cfg ctx =
      some ⟨ExecutionStrategy.edge_only, r⟩ := by
  have h1 : ¬(ctx.system_state.device_type = "gpu" ∧
      cfg.gpu_overload_threshold < ctx.system_state.gpu_usage) := by
    rintro ⟨a, b⟩; exact absurd b (not_lt.mpr (hgpu a))
  have h2 : ¬(ctx.system_state.device_type ≠ "gpu" ∧
      cfg.cpu_overload_threshold < ctx.system_state.cpu_usage) := by
    rintro ⟨a, b⟩; exact absurd b (not_lt.mpr (hcpu a))
  have h3 : ¬(ctx.system_state.memory_available_mb < cfg.memory_critical_mb) :=
    not_lt.mpr hmem
  unfold HardConstraintChecker.check
  rw [if_neg h1, if_neg h2, if_neg h3]
  by_cases h4 : (ctx.task_requirements.max_latency_ms : ℚ) < cfg.ultra_low_latency_ms
  · rw [if_pos h4]; exact ⟨_, rfl⟩
  · rw [if_neg h4, if_pos hpriv]; exact ⟨_, rfl⟩

/-- C1 (amended): for every request with priority 5 and privacy_level 2
(in fact any privacy_level ≥ 2), every network state, and every system
state in which neither the hardware-overload rule nor the memory rule
fires — the overload and memory rules precede the privacy rule and force
CLOUD_DIRECT — `decide` returns an EDGE_ONLY plan. -/
theorem c1_privacy_request_gets_edge_only (hcfg : HardConfig)
    (scfg : ScorerConfig) (pcfg : PlannerConfig) (tracker : HistoryTracker)
    (ctx : DecisionContext)
    (_hpriority : ctx.task_requirements.priority = 5)
    (hpriv : ctx.task_requirements.privacy_level = 2)
    (hgpu : ctx.system_state.device_type = "gpu" →
      ctx.system_state.gpu_usage ≤ hcfg.gpu_overload_threshold)
    (hcpu : ctx.system_state.device_type ≠ "gpu" →
      ctx.system_state.cpu_usage ≤ hcfg.cpu_overload_threshold)
    (hmem : hcfg.memory_critical_mb ≤ ctx.system_state.memory_available_mb) :
    (F1_DecisionModule.decide hcfg scfg pcfg tracker ctx).strategy =
      ExecutionStrategy.edge_only := by
  obtain ⟨r, hr⟩ := check_privacy_yields_edge_only hcfg ctx (le_of_eq hpriv.symm)
    hgpu hcpu hmem
  unfold F1_DecisionModule.decide
  rw [hr]
  rfl

/-- Counterexample to claim C1 as stated: a priority-5, privacy-2 request
on an overloaded CPU device (cpu_usage 98 > 95) — the hardware-overload
rule precedes the privacy rule, so `decide` returns CLOUD_DIRECT, not
EDGE_ONLY. -/
theorem c1_counterexample :
    ctxPrivacyOverload.task_requirements.priority = 5 ∧
    ctxPrivacyOverload.task_requirements.privacy_level = 2 ∧
    (F1_DecisionModule.decide {} {} {} (HistoryTracker.mk0 100)
        ctxPrivacyOverload).strategy = ExecutionStrategy.cloud_direct ∧
    (F1_DecisionModule.decide {} {} {} (HistoryTracker.mk0 100)
        ctxPrivacyOverload).strategy ≠ ExecutionStrategy.edge_only := by
  refine ⟨rfl, rfl, ?_, ?_⟩ <;> with_unfolding_all decide

/-- Witness for C1 at a healthy privacy-2 context. -/
theorem c1_witness :
    (F1_DecisionModule.decide {} {} {} (HistoryTracker.mk0 100)
        ctxPrivacyHealthy).strategy = ExecutionStrategy.edge_only :=
  c1_privacy_request_gets_edge_only {} {} {} (HistoryTracker.mk0 100)
    ctxPrivacyHealthy rfl rfl (by with_unfolding_all decide)
    (by with_unfolding_all decide) (by with_unfolding_all decide)

/-- C5 (amended): when a strategy's projected latency (historical mean on
at least 5 samples, otherwise the configured estimate, plus the RTT
penalties) strictly exceeds the request's `max_latency_ms` SLO, only its
LATENCY score is hard-zeroed; its total score collapses to
`w_cost * cost + w_quality * quality` (the priority bonus, a multiple of
the latency score, vanishes too), so the strategy is NOT ineligible and
can still be selected. -/
theorem c5_over_slo_zeroes_latency_only (scfg : ScorerConfig)
    (tracker : HistoryTracker) (strategy : ExecutionStrategy)
    (ctx : DecisionContext)
    (h : (ctx.task_requirements.max_latency_ms : ℚ) <
      MultiObjectiveScorer.projected_latency scfg tracker strategy ctx) :
    MultiObjectiveScorer.score_latency scfg tracker strategy ctx = 0 ∧
    MultiObjectiveScorer.calculate_score scfg tracker strategy ctx =
      scfg.w_cost * MultiObjectiveScorer.score_cost strategy +
        scfg.w_quality *
          MultiObjectiveScorer.score_quality scfg tracker strategy ctx := by
  have h0 : MultiObjectiveScorer.score_latency scfg tracker strategy ctx = 0 := by
    unfold MultiObjectiveScorer.score_latency
    rw [if_pos h]
  refine ⟨h0, ?_⟩
  unfold MultiObjectiveScorer.calculate_score
  rw [h0]
  split_ifs <;> ring

/-- Counterexample to claim C5 as stated: with five EDGE_ONLY records of
latency 60 ms and an SLO of 50 ms, EDGE_ONLY's projected latency (60)
exceeds the SLO, yet the scoring phase of `decide` still selects
EDGE_ONLY (its cost and quality components outweigh the other
strategies). -/
theorem c5_counterexample :
    (ctxTightSlo.task_requirements.max_latency_ms : ℚ) <
      MultiObjectiveScorer.projected_latency {} trackerEdge60
        ExecutionStrategy.edge_only ctxTightSlo ∧
    HardConstraintChecker.check {} ctxTightSlo = none ∧
    (F1_DecisionModule.decide {} {} {} trackerEdge60 ctxTightSlo).strategy =
      ExecutionStrategy.edge_only := by
  refine ⟨?_, ?_, ?_⟩ <;> with_unfolding_all decide

/-- Witness for C5 instantiated at the EDGE_ONLY strategy of the
counterexample context, whose projected latency 60 exceeds the 50 ms
SLO. -/
theorem c5_witness :
    MultiObjectiveScorer.score_latency {} trackerEdge60
        ExecutionStrategy.edge_only ctxTightSlo = 0 ∧
    MultiObjectiveScorer.calculate_score {} trackerEdge60
        ExecutionStrategy.edge_only ctxTightSlo =
      ({} : ScorerConfig).w_cost *
          MultiObjectiveScorer.score_cost ExecutionStrategy.edge_only +
        ({} : ScorerConfig).w_quality *
          MultiObjectiveScorer.score_quality {} trackerEdge60
            ExecutionStrategy.edge_only ctxTightSlo :=
  c5_over_slo_zeroes_latency_only {} trackerEdge60 ExecutionStrategy.edge_only
    ctxTightSlo (by with_unfolding_all decide)

set_option maxHeartbeats 2000000 in
/-- C10: for every configuration and decision context,
`HardConstraintChecker.check` evaluates exactly the six rules of the
claim, in the claim's fixed order with first match winning — it returns
the strategy and reason of the first matching rule of `claimHardRules`,
and `none` when no rule matches. -/
theorem c10_check_is_first_match (cfg : HardConfig) (ctx : DecisionContext) :
    HardConstraintChecker.check cfg ctx = claimFirstMatch cfg ctx := by
  unfold HardConstraintChecker.check claimFirstMatch claimHardRules
    claimRuleOverload claimRuleMemory claimRuleLatency claimRulePrivacy
    claimRuleNetwork claimRuleUrgent
  cases hn : ctx.network_state with
  | none => simp only [List.findSome?]; split_ifs <;> simp_all
  | some net =>
    simp only [List.findSome?]
    split_ifs <;> simp_all <;>
      rw [if_neg (not_lt.mpr (by assumption))]

end CECO
